import Mathlib

/-!
Shallow embedding of the python-gssapi binding layer
(`gssapi/raw/ext_dce_aead.pyx`, `gssapi/raw/ext_rfc6680.pyx`,
`gssapi/raw/ext_password_add.pyx`) together with theorems checking the
natural-language specification of the module against it.

The native GSSAPI library is opaque to the binding; it is modelled as an
oracle: a function (or, for the iterative attribute-retrieval protocol, a
list of per-call responses) supplied as an explicit parameter.  Each
wrapper embedding returns, besides the Python-level result
(`Except PyErr _` mirroring return-or-raise), a record of the native calls
it issued and the buffer-management events it performed, so that
call-counting, argument-marshalling and buffer-release properties can be
stated and proved.
-/

deriving instance DecidableEq for Except

namespace GssapiRaw

/-- Byte strings (Python `bytes`); a byte is modelled as a `Nat`. -/
abbrev Bytes := List Nat

/-- `gss_buffer_desc(length, value)`: a (length, pointer) buffer
descriptor.  The payload behind the pointer is modelled as the byte list
`value`; a NULL payload (as in `GSS_C_EMPTY_BUFFER`) is the empty list. -/
structure gss_buffer_desc where
  length : Nat
  value : Bytes
deriving DecidableEq, Repr

/-- A `gss_buffer_t` argument position: either the NULL pointer
`GSS_C_NO_BUFFER` or a pointer to a real `gss_buffer_desc`. -/
inductive gss_buffer_t where
  | GSS_C_NO_BUFFER
  | buf (desc : gss_buffer_desc)
deriving DecidableEq, Repr

/-- The GSSAPI success major-status code. -/
def GSS_S_COMPLETE : Nat := 0

/-- The default quality-of-protection constant. -/
def GSS_C_QOP_DEFAULT : Nat := 0

/-- Copy-out of a native buffer: `(<char*>buf.value)[:buf.length]` reads
`buf.length` bytes from the payload. -/
def copyOut (b : gss_buffer_desc) : Bytes := b.value.take b.length

/-- Cython `<bint>` conversion: nonzero C int becomes `True`. -/
def bint (i : Int) : Bool := i != 0

/-- Python-level exceptions raised by the wrappers: `GSSError(maj, min)`
from `gssapi.raw.misc`, `ValueError` (the `usage` check in
`add_cred_with_password`), and `TypeError` (Cython `not None` argument
clauses). -/
inductive PyErr where
  | GSSError (maj_stat : Nat) (min_stat : Nat)
  | ValueError
  | TypeError
deriving DecidableEq, Repr

/-- Buffer-management events a wrapper performs, in order: a native call,
a copy-out of a native-populated buffer, a `gss_release_buffer` on a
buffer, or a `gss_release_buffer_set`. -/
inductive BufEvent where
  | callEv
  | copyEv (b : gss_buffer_desc)
  | releaseEv (b : gss_buffer_desc)
  | releaseSetEv
deriving DecidableEq, Repr

/-- Number of `gss_release_buffer` events in a trace. -/
def releaseCount (t : List BufEvent) : Nat :=
  t.countP fun e => match e with | BufEvent.releaseEv _ => true | _ => false

/-- Number of copy-out events in a trace. -/
def copyCount (t : List BufEvent) : Nat :=
  t.countP fun e => match e with | BufEvent.copyEv _ => true | _ => false

/-- Marshalling of a required `bytes` argument:
`gss_buffer_desc(len(b), b)`. -/
def toNativeBuffer (b : Bytes) : gss_buffer_desc := ⟨b.length, b⟩

/-- Marshalling of the optional associated-data argument in `wrap_aead`
and `unwrap_aead`: `None` leaves `assoc_buffer_ptr` at
`GSS_C_NO_BUFFER`; a supplied byte string (including an empty one)
yields a real descriptor of its exact length. -/
def assocBufferPtr : Option Bytes → gss_buffer_t
  | some a => gss_buffer_t.buf ⟨a.length, a⟩
  | none => gss_buffer_t.GSS_C_NO_BUFFER

/-- Cython coercion of a Python bool argument to a C int. -/
def cIntOfBool (b : Bool) : Int := if b then 1 else 0

/-- `qop if qop is not None else GSS_C_QOP_DEFAULT`. -/
def qopOrDefault : Option Nat → Nat
  | some q => q
  | none => GSS_C_QOP_DEFAULT

/-! ## `ext_dce_aead.pyx`: `wrap_aead` and `unwrap_aead` -/

/-- The argument record passed to the native `gss_wrap_aead` entry point. -/
structure WrapAeadCallRec where
  conf_req : Int
  qop_req : Nat
  input_assoc_buffer : gss_buffer_t
  input_payload_buffer : gss_buffer_desc
deriving DecidableEq, Repr

/-- What the native `gss_wrap_aead` writes back: the status pair, the
`conf_ret` out-int and, when it succeeds, the populated
`output_message_buffer`. -/
structure WrapAeadResp where
  maj_stat : Nat
  min_stat : Nat
  conf_ret : Int
  output_message_buffer : gss_buffer_desc
deriving DecidableEq, Repr

/-- `WrapResult(message, encrypted)` from `gssapi.raw.named_tuples`. -/
structure WrapResult where
  message : Bytes
  encrypted : Bool
deriving DecidableEq, Repr

/-- Everything a `wrap_aead` invocation produced: the Python result, the
native argument record, the response the oracle gave, and the event
trace. -/
structure WrapAeadOut where
  result : Except PyErr WrapResult
  callRec : WrapAeadCallRec
  resp : WrapAeadResp
  trace : List BufEvent
deriving Repr

/-- Embedding of `wrap_aead(context, message, associated=None,
confidential=True, qop=None)` from `ext_dce_aead.pyx`.  `native` is the
oracle for `gss_wrap_aead`. -/
def wrap_aead (native : WrapAeadCallRec → WrapAeadResp)
    (message : Bytes) (associated : Option Bytes)
    (confidential : Bool) (qop : Option Nat) : WrapAeadOut :=
  let conf_req : Int := cIntOfBool confidential
  let qop_req : Nat := qopOrDefault qop
  let message_buffer : gss_buffer_desc := toNativeBuffer message
  let assoc_buffer_ptr : gss_buffer_t := assocBufferPtr associated
  let cr : WrapAeadCallRec := ⟨conf_req, qop_req, assoc_buffer_ptr, message_buffer⟩
  let resp := native cr
  if resp.maj_stat = GSS_S_COMPLETE then
    let output_message := copyOut resp.output_message_buffer
    ⟨Except.ok ⟨output_message, bint resp.conf_ret⟩, cr, resp,
      [BufEvent.callEv, BufEvent.copyEv resp.output_message_buffer,
       BufEvent.releaseEv resp.output_message_buffer]⟩
  else
    ⟨Except.error (PyErr.GSSError resp.maj_stat resp.min_stat), cr, resp,
      [BufEvent.callEv]⟩

/-- The argument record passed to the native `gss_unwrap_aead` entry
point. -/
structure UnwrapAeadCallRec where
  input_message_buffer : gss_buffer_desc
  input_assoc_buffer : gss_buffer_t
deriving DecidableEq, Repr

/-- What the native `gss_unwrap_aead` writes back. -/
structure UnwrapAeadResp where
  maj_stat : Nat
  min_stat : Nat
  conf_ret : Int
  qop_ret : Nat
  output_payload_buffer : gss_buffer_desc
deriving DecidableEq, Repr

/-- `UnwrapResult(message, encrypted, qop)` from
`gssapi.raw.named_tuples`. -/
structure UnwrapResult where
  message : Bytes
  encrypted : Bool
  qop : Nat
deriving DecidableEq, Repr

/-- Everything an `unwrap_aead` invocation produced. -/
structure UnwrapAeadOut where
  result : Except PyErr UnwrapResult
  callRec : UnwrapAeadCallRec
  resp : UnwrapAeadResp
  trace : List BufEvent
deriving Repr

/-- Embedding of `unwrap_aead(context, message, associated=None)` from
`ext_dce_aead.pyx`. -/
def unwrap_aead (native : UnwrapAeadCallRec → UnwrapAeadResp)
    (message : Bytes) (associated : Option Bytes) : UnwrapAeadOut :=
  let input_buffer : gss_buffer_desc := toNativeBuffer message
  let assoc_buffer_ptr : gss_buffer_t := assocBufferPtr associated
  let cr : UnwrapAeadCallRec := ⟨input_buffer, assoc_buffer_ptr⟩
  let resp := native cr
  if resp.maj_stat = GSS_S_COMPLETE then
    let output_message := copyOut resp.output_payload_buffer
    ⟨Except.ok ⟨output_message, bint resp.conf_ret, resp.qop_ret⟩, cr, resp,
      [BufEvent.callEv, BufEvent.copyEv resp.output_payload_buffer,
       BufEvent.releaseEv resp.output_payload_buffer]⟩
  else
    ⟨Except.error (PyErr.GSSError resp.maj_stat resp.min_stat), cr, resp,
      [BufEvent.callEv]⟩

/-! ## `ext_rfc6680.pyx`: `set_name_attribute` -/

/-- A two-code native status response (for native entry points whose
other out-parameters the wrapper does not read). -/
structure StatusResp where
  maj_stat : Nat
  min_stat : Nat
deriving DecidableEq, Repr

/-- The argument record passed to one native `gss_set_name_attribute`
call: the C `complete` int and the attribute/value buffers. -/
structure SetNameAttrCallRec where
  complete : Int
  attr : gss_buffer_desc
  value : gss_buffer_desc
deriving DecidableEq, Repr

/-- `size_t` arithmetic is modulo `2 ^ 64`. -/
def SIZE_T_MOD : Nat := 2 ^ 64

/-- The loop body of `set_name_attribute`: iterate over the remaining
values; on each one increment the `size_t` counter `i`, pass the caller's
`complete` flag iff `i == value_len`, issue the native call (the oracle
`native` is indexed by call number), and abort with `GSSError` on the
first non-success status. -/
def setNameAttrLoop (native : Nat → StatusResp) (attr_buff : gss_buffer_desc)
    (complete : Bool) (value_len : Nat) (vals : List Bytes) (i : Nat)
    (callIdx : Nat) : Except PyErr Unit × List SetNameAttrCallRec :=
  match vals with
  | [] => (Except.ok (), [])
  | val :: restVals =>
    let val_buff : gss_buffer_desc := ⟨val.length, val⟩
    let i2 := (i + 1) % SIZE_T_MOD
    let flag : Int := if i2 = value_len then (if complete then 1 else 0) else 0
    let callRecord : SetNameAttrCallRec := ⟨flag, attr_buff, val_buff⟩
    let resp := native callIdx
    if resp.maj_stat = GSS_S_COMPLETE then
      let out := setNameAttrLoop native attr_buff complete value_len restVals i2
        (callIdx + 1)
      (out.1, callRecord :: out.2)
    else
      (Except.error (PyErr.GSSError resp.maj_stat resp.min_stat), [callRecord])

/-- Embedding of `set_name_attribute(name, attr, value, complete=False)`
from `ext_rfc6680.pyx`.  The source declares `cdef size_t i` WITHOUT an
initializer and then executes `i += 1`, so the counter starts from an
indeterminate value; that indeterminate initial content is the explicit
parameter `i_uninit`. -/
def set_name_attribute (native : Nat → StatusResp) (attr : Bytes)
    (value : List Bytes) (complete : Bool) (i_uninit : Nat) :
    Except PyErr Unit × List SetNameAttrCallRec :=
  let attr_buff : gss_buffer_desc := ⟨attr.length, attr⟩
  setNameAttrLoop native attr_buff complete value.length value
    (i_uninit % SIZE_T_MOD) 0

/-! ## `ext_rfc6680.pyx`: `get_name_attribute` -/

/-- What one native `gss_get_name_attribute` call writes back: the status
pair, the `authenticated`/`complete` out-ints, the populated value and
display-value buffers, and the continuation out-int `more`. -/
structure GetNameAttrResp where
  maj_stat : Nat
  min_stat : Nat
  authenticated : Int
  complete : Int
  value : gss_buffer_desc
  display_value : gss_buffer_desc
  more : Int
deriving DecidableEq, Repr

/-- `GetNameAttributeResult(values, display_values, authenticated,
complete)` from `gssapi.raw.named_tuples`. -/
structure GetNameAttributeResult where
  values : List Bytes
  display_values : List Bytes
  authenticated : Bool
  complete : Bool
deriving DecidableEq, Repr

/-- Outcome of running the `get_name_attribute` loop against a finite
oracle: the Python result (`none` when the finite response list was
exhausted while `more` was still nonzero, i.e. the oracle does not
determine the call's outcome), the event trace, the number of native
calls issued, and how many of those returned success. -/
structure GetRunOut where
  result : Option (Except PyErr GetNameAttributeResult)
  trace : List BufEvent
  calls : Nat
  okCalls : Nat
deriving DecidableEq, Repr

/-- The `while more_val != 0` loop of `get_name_attribute`: each
iteration consumes the next oracle response; on success it appends the
copied-out value/display pair, releases both buffers, and continues with
`more_val` overwritten by the response; on failure it raises.  The loop
is entered only while `more_val ≠ 0`. -/
def getNameAttrLoop (rs : List GetNameAttrResp)
    (py_vals py_displ_vals : List Bytes)
    (authenticated complete : Int) (more_val : Int) : GetRunOut :=
  if more_val = 0 then
    ⟨some (Except.ok ⟨py_vals, py_displ_vals, bint authenticated, bint complete⟩),
     [], 0, 0⟩
  else
    match rs with
    | [] => ⟨none, [], 0, 0⟩
    | r :: rest =>
      if r.maj_stat = GSS_S_COMPLETE then
        let sub := getNameAttrLoop rest
          (py_vals ++ [copyOut r.value])
          (py_displ_vals ++ [copyOut r.display_value])
          r.authenticated r.complete r.more
        ⟨sub.result,
         BufEvent.callEv :: BufEvent.copyEv r.value ::
           BufEvent.copyEv r.display_value :: BufEvent.releaseEv r.value ::
           BufEvent.releaseEv r.display_value :: sub.trace,
         sub.calls + 1, sub.okCalls + 1⟩
      else
        ⟨some (Except.error (PyErr.GSSError r.maj_stat r.min_stat)),
         [BufEvent.callEv], 1, 0⟩

/-- Embedding of `get_name_attribute(name, attr, more=None)` from
`ext_rfc6680.pyx`.  `more_val` starts at `-1`; the `cdef int
authenticated` and `cdef int complete` locals start uninitialized, so
their indeterminate initial contents are the explicit parameters
`auth_uninit` and `comp_uninit`. -/
def get_name_attribute (rs : List GetNameAttrResp) (attr : Bytes)
    (auth_uninit comp_uninit : Int) : GetRunOut :=
  let _attr_buff : gss_buffer_desc := ⟨attr.length, attr⟩
  getNameAttrLoop rs [] [] auth_uninit comp_uninit (-1)

/-- The event block of one successful iteration of the
`get_name_attribute` loop: the native call, copy-out of the two
populated buffers, then a release of each — every buffer is released
only after its copy-out. -/
def blockOf (r : GetNameAttrResp) : List BufEvent :=
  [BufEvent.callEv, BufEvent.copyEv r.value, BufEvent.copyEv r.display_value,
   BufEvent.releaseEv r.value, BufEvent.releaseEv r.display_value]

/-- Concatenation of the per-iteration event blocks of a list of
consumed successful responses. -/
def blocksOf : List GetNameAttrResp → List BufEvent
  | [] => []
  | r :: rest => blockOf r ++ blocksOf rest

/-! ## `ext_rfc6680.pyx`: `display_name_ext`, `delete_name_attribute`,
`export_name_composite` -/

/-- What the native `gss_display_name_ext` writes back. -/
structure DisplayNameExtResp where
  maj_stat : Nat
  min_stat : Nat
  output_name : gss_buffer_desc
deriving DecidableEq, Repr

/-- Everything a `display_name_ext` invocation produced. -/
structure DisplayNameExtOut where
  result : Except PyErr Bytes
  resp : DisplayNameExtResp
  trace : List BufEvent
deriving DecidableEq, Repr

/-- Embedding of `display_name_ext(name, name_type)` from
`ext_rfc6680.pyx`: one native call; on success the populated output
buffer is copied out and then released once; otherwise `GSSError` is
raised.  The name and name-type handles are opaque `Nat`s. -/
def display_name_ext (native : Nat → Nat → DisplayNameExtResp)
    (name : Nat) (name_type : Nat) : DisplayNameExtOut :=
  let resp := native name name_type
  if resp.maj_stat = GSS_S_COMPLETE then
    ⟨Except.ok (copyOut resp.output_name), resp,
     [BufEvent.callEv, BufEvent.copyEv resp.output_name,
      BufEvent.releaseEv resp.output_name]⟩
  else
    ⟨Except.error (PyErr.GSSError resp.maj_stat resp.min_stat), resp,
     [BufEvent.callEv]⟩

/-- Everything a `delete_name_attribute` invocation produced. -/
structure DeleteNameAttrOut where
  result : Except PyErr Unit
  resp : StatusResp
  trace : List BufEvent
deriving DecidableEq, Repr

/-- Embedding of `delete_name_attribute(name, attr)` from
`ext_rfc6680.pyx`: a single native call with the marshalled attribute
buffer; no output buffer exists, so nothing is ever copied or
released. -/
def delete_name_attribute (native : Nat → gss_buffer_desc → StatusResp)
    (name : Nat) (attr : Bytes) : DeleteNameAttrOut :=
  let attr_buff : gss_buffer_desc := toNativeBuffer attr
  let resp := native name attr_buff
  if resp.maj_stat = GSS_S_COMPLETE then
    ⟨Except.ok (), resp, [BufEvent.callEv]⟩
  else
    ⟨Except.error (PyErr.GSSError resp.maj_stat resp.min_stat), resp,
     [BufEvent.callEv]⟩

/-- What the native `gss_export_name_composite` writes back. -/
structure ExportNameResp where
  maj_stat : Nat
  min_stat : Nat
  exported_name : gss_buffer_desc
deriving DecidableEq, Repr

/-- Everything an `export_name_composite` invocation produced. -/
structure ExportNameOut where
  result : Except PyErr Bytes
  resp : ExportNameResp
  trace : List BufEvent
deriving DecidableEq, Repr

/-- Embedding of `export_name_composite(name)` from `ext_rfc6680.pyx`:
one native call; on success the populated result buffer is copied out
and then released once; otherwise `GSSError` is raised. -/
def export_name_composite (native : Nat → ExportNameResp) (name : Nat) :
    ExportNameOut :=
  let resp := native name
  if resp.maj_stat = GSS_S_COMPLETE then
    ⟨Except.ok (copyOut resp.exported_name), resp,
     [BufEvent.callEv, BufEvent.copyEv resp.exported_name,
      BufEvent.releaseEv resp.exported_name]⟩
  else
    ⟨Except.error (PyErr.GSSError resp.maj_stat resp.min_stat), resp,
     [BufEvent.callEv]⟩

/-! ## `ext_rfc6680.pyx`: `inquire_name` -/

/-- Which out-pointers the wrapper passed to `gss_inquire_name`
(`true` = a real pointer, `false` = `NULL`). -/
structure InquireNameCallRec where
  name_is_mn_passed : Bool
  mech_passed : Bool
  attrs_passed : Bool
deriving DecidableEq, Repr

/-- What the native `gss_inquire_name` writes back.  `attrs = none`
models the `GSS_C_NO_BUFFER_SET` sentinel; `attrs = some elems` models a
genuinely allocated buffer set with elements `elems` (possibly of count
zero).  The mechanism OID is modelled as an opaque `Nat` handle. -/
structure InquireNameResp where
  maj_stat : Nat
  min_stat : Nat
  name_is_mn : Int
  mech_type : Nat
  attrs : Option (List gss_buffer_desc)
deriving DecidableEq, Repr

/-- `InquireNameResult(attrs, is_mech_name, mech)` from
`gssapi.raw.named_tuples`. -/
structure InquireNameResult where
  attrs : List Bytes
  is_mech_name : Bool
  mech : Option Nat
deriving DecidableEq, Repr

/-- Everything an `inquire_name` invocation produced; `releaseSetCalls`
counts the `gss_release_buffer_set` calls made. -/
structure InquireNameOut where
  result : Except PyErr InquireNameResult
  callRec : InquireNameCallRec
  resp : InquireNameResp
  releaseSetCalls : Nat
deriving DecidableEq, Repr

/-- Embedding of `inquire_name(name, mech_name=True, attrs=True)` from
`ext_rfc6680.pyx`.  The locals `attr_names` (initialized to
`GSS_C_NO_BUFFER_SET`) and `name_is_mn` (initialized to `0`) are only
written by the native call when the corresponding out-pointer was
passed. -/
def inquire_name (native : InquireNameCallRec → InquireNameResp)
    (mech_name : Bool) (attrs : Bool) : InquireNameOut :=
  let cr : InquireNameCallRec := ⟨mech_name, mech_name, attrs⟩
  let resp := native cr
  let attr_names : Option (List gss_buffer_desc) :=
    if attrs then resp.attrs else none
  let name_is_mn : Int := if mech_name then resp.name_is_mn else 0
  if resp.maj_stat = GSS_S_COMPLETE then
    let extracted : List Bytes × Nat :=
      match attr_names with
      | none => ([], 0)
      | some elems => (elems.map copyOut, 1)
    let py_mech : Option Nat :=
      if bint name_is_mn then some resp.mech_type else none
    ⟨Except.ok ⟨extracted.1, bint name_is_mn, py_mech⟩, cr, resp, extracted.2⟩
  else
    ⟨Except.error (PyErr.GSSError resp.maj_stat resp.min_stat), cr, resp, 0⟩

/-! ## Credential objects

`Creds` objects live in `gssapi.raw.creds`, which is not under `src/`;
only their use sites are.  A `Creds` Python object is modelled by its
object identity `obj_id` plus the native handle `raw_creds` it wraps
(`0` modelling the NULL handle `GSS_C_NO_CREDENTIAL`). -/

/-- The NULL credential handle. -/
def GSS_C_NO_CREDENTIAL : Nat := 0

/-- A `Creds` Python object: object identity plus wrapped native
handle. -/
structure Creds where
  obj_id : Nat
  raw_creds : Nat
deriving DecidableEq, Repr

/-- Modelled from the spec: the `Creds()` constructor of
`gssapi.raw.creds` is not under `src/`.  Per §2/§4.6 a freshly
constructed credential object wraps no native credential yet (a fresh
handle is only created by the native layer), so `Creds()` yields a new
object identity holding the NULL handle. -/
def CredsNew (fresh_id : Nat) : Creds := ⟨fresh_id, GSS_C_NO_CREDENTIAL⟩

/-! ## `ext_password_add.pyx`: `add_cred_with_password` -/

/-- `gss_cred_usage_t` constants. -/
inductive gss_cred_usage_t where
  | GSS_C_INITIATE
  | GSS_C_ACCEPT
  | GSS_C_BOTH
deriving DecidableEq, Repr

/-- The native "indefinite lifetime" sentinel `GSS_C_INDEFINITE`
(`0xffffffff`). -/
def GSS_C_INDEFINITE : Nat := 2 ^ 32 - 1

/-- Modelled from the spec: `c_py_ttl_to_c` from
`gssapi.raw.cython_converters` is not under `src/`.  Per §4.4, "TTL
absent is translated to the native 'indefinite' sentinel; TTL present as
zero is translated distinctly and must not collapse to indefinite". -/
def c_py_ttl_to_c : Option Nat → Nat
  | none => GSS_C_INDEFINITE
  | some t => t

/-- Modelled from the spec: `c_c_ttl_to_py` from
`gssapi.raw.cython_converters` is not under `src/`.  Per §3/§4.4, the
native indefinite sentinel maps back to absence. -/
def c_c_ttl_to_py (t : Nat) : Option Nat :=
  if t = GSS_C_INDEFINITE then none else some t

/-- Modelled from the spec: `c_create_oid_set` from
`gssapi.raw.cython_converters` is not under `src/`; it converts the
native OID set (modelled as a list of opaque `Nat` OID handles) into the
Python-level set of mechanisms. -/
def c_create_oid_set (mechs : List Nat) : List Nat := mechs

/-- The argument record passed to the native
`gss_add_cred_with_password` entry point. -/
structure AddCredCallRec where
  input_cred_handle : Nat
  desired_name : Nat
  desired_mech : Nat
  password : gss_buffer_desc
  cred_usage : gss_cred_usage_t
  initiator_ttl : Nat
  acceptor_ttl : Nat
deriving DecidableEq, Repr

/-- What the native `gss_add_cred_with_password` writes back. -/
structure AddCredResp where
  maj_stat : Nat
  min_stat : Nat
  output_creds : Nat
  actual_mechs : List Nat
  actual_init_ttl : Nat
  actual_accept_ttl : Nat
deriving DecidableEq, Repr

/-- `AddCredResult(creds, mechs, init_lifetime, accept_lifetime)` from
`gssapi.raw.named_tuples`. -/
structure AddCredResult where
  creds : Creds
  mechs : List Nat
  init_lifetime : Option Nat
  accept_lifetime : Option Nat
deriving DecidableEq, Repr

/-- Events of an `add_cred_with_password` invocation: the native call
(with its argument record) and the binding-side construction of a
caller-side `Creds` object. -/
inductive AddCredEvent where
  | nativeCallEv (cr : AddCredCallRec)
  | allocCredsEv
deriving DecidableEq, Repr

/-- Embedding of `add_cred_with_password(input_cred, name, mech,
password, usage='initiate', init_lifetime=None, accept_lifetime=None)`
from `ext_password_add.pyx`.  The Cython signature declares
`Creds input_cred not None`, so a `None` argument is rejected with
`TypeError` before anything else.  The `usage` string is validated
against the three accepted literals before any native call; `fresh_id`
is the object identity the binding would give the output `Creds` wrapper
it constructs on success. -/
def add_cred_with_password (native : AddCredCallRec → AddCredResp)
    (input_cred : Option Creds) (name : Nat) (mech : Nat) (password : Bytes)
    (usage : String) (init_lifetime accept_lifetime : Option Nat)
    (fresh_id : Nat) : Except PyErr AddCredResult × List AddCredEvent :=
  match input_cred with
  | none => (Except.error PyErr.TypeError, [])
  | some cred =>
    let password_buffer : gss_buffer_desc := ⟨password.length, password⟩
    let c_usage : Option gss_cred_usage_t :=
      if usage = "initiate" then some gss_cred_usage_t.GSS_C_INITIATE
      else if usage = "accept" then some gss_cred_usage_t.GSS_C_ACCEPT
      else if usage = "both" then some gss_cred_usage_t.GSS_C_BOTH
      else none
    match c_usage with
    | none => (Except.error PyErr.ValueError, [])
    | some cu =>
      let input_initiator_ttl := c_py_ttl_to_c init_lifetime
      let input_acceptor_ttl := c_py_ttl_to_c accept_lifetime
      let cr : AddCredCallRec := ⟨cred.raw_creds, name, mech, password_buffer,
        cu, input_initiator_ttl, input_acceptor_ttl⟩
      let resp := native cr
      if resp.maj_stat = GSS_S_COMPLETE then
        (Except.ok ⟨⟨fresh_id, resp.output_creds⟩,
           c_create_oid_set resp.actual_mechs,
           c_c_ttl_to_py resp.actual_init_ttl,
           c_c_ttl_to_py resp.actual_accept_ttl⟩,
         [AddCredEvent.nativeCallEv cr, AddCredEvent.allocCredsEv])
      else
        (Except.error (PyErr.GSSError resp.maj_stat resp.min_stat),
         [AddCredEvent.nativeCallEv cr])

/-! ## `ext_rfc6680.pyx` (second part): `set_cred_option` -/

/-- The argument record passed to the native `gss_set_cred_option` entry
point: the credential handle behind the in/out `gss_cred_id_t *cred`
pointer at call time, the option OID, and the value buffer. -/
structure SetCredOptionCallRec where
  cred_handle_in : Nat
  desired_object : Nat
  value_buffer : gss_buffer_desc
deriving DecidableEq, Repr

/-- What the native `gss_set_cred_option` writes back:
`new_cred_handle` is the content of the in/out `gss_cred_id_t *cred`
after the call. -/
structure SetCredOptionResp where
  maj_stat : Nat
  min_stat : Nat
  new_cred_handle : Nat
deriving DecidableEq, Repr

/-- Events of a `set_cred_option` invocation, in order: binding-side
`Creds()` construction, then the native call. -/
inductive SetCredEvent where
  | allocCredsEv (c : Creds)
  | nativeCallEv (cr : SetCredOptionCallRec)
deriving DecidableEq, Repr

/-- `value` marshalling in `set_cred_option`: a supplied byte string
(including an empty one) yields a descriptor of its exact length; `None`
yields `GSS_C_EMPTY_BUFFER`. -/
def valueBufferOrEmpty : Option Bytes → gss_buffer_desc
  | some v => ⟨v.length, v⟩
  | none => ⟨0, []⟩

/-- The credential object `set_cred_option` operates on: the supplied
one, or a fresh `Creds()` when absent. -/
def outputCredsOf (creds : Option Creds) (fresh_id : Nat) : Creds :=
  match creds with
  | some c => c
  | none => CredsNew fresh_id

/-- The binding-side allocation events of `set_cred_option`: a fresh
`Creds()` is constructed exactly when `creds` is absent, before the
native call. -/
def allocEventsOf (creds : Option Creds) (fresh_id : Nat) :
    List SetCredEvent :=
  match creds with
  | some _ => []
  | none => [SetCredEvent.allocCredsEv (CredsNew fresh_id)]

/-- Everything a `set_cred_option` invocation produced. -/
structure SetCredOptionOut where
  result : Except PyErr Creds
  callRec : SetCredOptionCallRec
  resp : SetCredOptionResp
  trace : List SetCredEvent
deriving DecidableEq, Repr

/-- Embedding of `set_cred_option(desired_aspect, creds=None,
value=None)` from `ext_rfc6680.pyx`.  The option OID is an opaque `Nat`
handle; `fresh_id` is the object identity `Creds()` would produce when
`creds` is absent.  The native call receives `&output_creds.raw_creds`
as an in/out parameter, so the handle the object wraps afterwards is
whatever the native call left there. -/
def set_cred_option (native : SetCredOptionCallRec → SetCredOptionResp)
    (desired_aspect : Nat) (creds : Option Creds) (value : Option Bytes)
    (fresh_id : Nat) : SetCredOptionOut :=
  let value_buffer : gss_buffer_desc := valueBufferOrEmpty value
  let output_creds : Creds := outputCredsOf creds fresh_id
  let allocEvents : List SetCredEvent := allocEventsOf creds fresh_id
  let cr : SetCredOptionCallRec :=
    ⟨output_creds.raw_creds, desired_aspect, value_buffer⟩
  let resp := native cr
  let mutated : Creds := ⟨output_creds.obj_id, resp.new_cred_handle⟩
  if resp.maj_stat = GSS_S_COMPLETE then
    ⟨Except.ok mutated, cr, resp, allocEvents ++ [SetCredEvent.nativeCallEv cr]⟩
  else
    ⟨Except.error (PyErr.GSSError resp.maj_stat resp.min_stat), cr, resp,
     allocEvents ++ [SetCredEvent.nativeCallEv cr]⟩

/-! ## Helper lemmas about the `get_name_attribute` loop -/

/-- Each successful native call in the loop copies out and then releases
exactly its two populated buffers, so release events and copy events both
number twice the successful calls. -/
lemma getNameAttrLoop_counts (rs : List GetNameAttrResp) :
    ∀ (vals dvals : List Bytes) (auth comp more_val : Int),
      releaseCount (getNameAttrLoop rs vals dvals auth comp more_val).trace =
        2 * (getNameAttrLoop rs vals dvals auth comp more_val).okCalls ∧
      copyCount (getNameAttrLoop rs vals dvals auth comp more_val).trace =
        2 * (getNameAttrLoop rs vals dvals auth comp more_val).okCalls := by
  induction rs with
  | nil =>
    intro vals dvals auth comp more_val
    rw [getNameAttrLoop]
    split
    · simp [releaseCount, copyCount]
    · simp [releaseCount, copyCount]
  | cons r rest ih =>
    intro vals dvals auth comp more_val
    rw [getNameAttrLoop]
    split
    · simp [releaseCount, copyCount]
    · split
      · have hsub := ih (vals ++ [copyOut r.value])
          (dvals ++ [copyOut r.display_value]) r.authenticated r.complete r.more
        simp [releaseCount, copyCount, List.countP_cons] at hsub ⊢
        omega
      · simp [releaseCount, copyCount]

/-- Characterization of a successful run of the `get_name_attribute`
loop (entered with a nonzero continuation value): the consumed responses
split as `pre ++ [fin]` where every response in `pre` succeeded with a
nonzero continuation flag, `fin` succeeded with continuation zero, the
appended value/display sequences are exactly the copied-out buffers of
the consumed responses in order, and the returned flags are those of the
final response. -/
lemma getNameAttrLoop_ok_spec (rs : List GetNameAttrResp) :
    ∀ (vals dvals : List Bytes) (auth comp more_val : Int)
      (res : GetNameAttributeResult),
      more_val ≠ 0 →
      (getNameAttrLoop rs vals dvals auth comp more_val).result =
        some (Except.ok res) →
      ∃ pre fin,
        rs.take (getNameAttrLoop rs vals dvals auth comp more_val).calls =
          pre ++ [fin] ∧
        1 ≤ (getNameAttrLoop rs vals dvals auth comp more_val).calls ∧
        (getNameAttrLoop rs vals dvals auth comp more_val).calls ≤ rs.length ∧
        (getNameAttrLoop rs vals dvals auth comp more_val).okCalls =
          (getNameAttrLoop rs vals dvals auth comp more_val).calls ∧
        (∀ r ∈ pre, r.maj_stat = GSS_S_COMPLETE ∧ r.more ≠ 0) ∧
        fin.maj_stat = GSS_S_COMPLETE ∧ fin.more = 0 ∧
        res.authenticated = bint fin.authenticated ∧
        res.complete = bint fin.complete ∧
        res.values = vals ++ (pre ++ [fin]).map (fun r => copyOut r.value) ∧
        res.display_values =
          dvals ++ (pre ++ [fin]).map (fun r => copyOut r.display_value) := by
  induction rs with
  | nil =>
    intro vals dvals auth comp more_val res hmore hres
    rw [getNameAttrLoop, if_neg hmore] at hres
    simp at hres
  | cons r rest ih =>
    intro vals dvals auth comp more_val res hmore hres
    rw [getNameAttrLoop, if_neg hmore] at hres ⊢
    by_cases hmaj : r.maj_stat = GSS_S_COMPLETE
    · rw [if_pos hmaj] at hres ⊢
      dsimp only at hres ⊢
      by_cases hm : r.more = 0
      · rw [getNameAttrLoop.eq_def, if_pos hm] at hres ⊢
        dsimp only at hres ⊢
        have hresEq : GetNameAttributeResult.mk (vals ++ [copyOut r.value])
            (dvals ++ [copyOut r.display_value]) (bint r.authenticated)
            (bint r.complete) = res := by
          simpa using hres
        refine ⟨[], r, ?_, ?_, ?_, ?_, ?_, hmaj, hm, ?_, ?_, ?_, ?_⟩
        · simp
        · simp
        · simp
        · simp
        · simp
        · rw [← hresEq]
        · rw [← hresEq]
        · rw [← hresEq]; simp
        · rw [← hresEq]; simp
      · obtain ⟨pre, fin, htake, hge1, hlen, hok, hpre, hfinmaj, hfinmore,
            hauth, hcomp, hvals, hdvals⟩ :=
          ih (vals ++ [copyOut r.value]) (dvals ++ [copyOut r.display_value])
            r.authenticated r.complete r.more res hm hres
        refine ⟨r :: pre, fin, ?_, ?_, ?_, ?_, ?_, hfinmaj, hfinmore,
          hauth, hcomp, ?_, ?_⟩
        · rw [List.take_succ_cons, htake]; rfl
        · omega
        · simpa using Nat.succ_le_succ hlen
        · omega
        · intro x hx
          rcases List.mem_cons.mp hx with hx | hx
          · subst hx; exact ⟨hmaj, hm⟩
          · exact hpre x hx
        · rw [hvals]; simp
        · rw [hdvals]; simp
    · rw [if_neg hmaj] at hres
      simp at hres

/-- Characterization of a failing run of the `get_name_attribute` loop:
the consumed responses split as `pre ++ [fin]` where every response in
`pre` succeeded (with nonzero continuation), `fin` is the first
non-success response, and the raised error carries `fin`'s status codes
verbatim. -/
lemma getNameAttrLoop_error_spec (rs : List GetNameAttrResp) :
    ∀ (vals dvals : List Bytes) (auth comp more_val : Int) (e : PyErr),
      more_val ≠ 0 →
      (getNameAttrLoop rs vals dvals auth comp more_val).result =
        some (Except.error e) →
      ∃ pre fin,
        rs.take (getNameAttrLoop rs vals dvals auth comp more_val).calls =
          pre ++ [fin] ∧
        (getNameAttrLoop rs vals dvals auth comp more_val).okCalls + 1 =
          (getNameAttrLoop rs vals dvals auth comp more_val).calls ∧
        (∀ r ∈ pre, r.maj_stat = GSS_S_COMPLETE ∧ r.more ≠ 0) ∧
        fin.maj_stat ≠ GSS_S_COMPLETE ∧
        e = PyErr.GSSError fin.maj_stat fin.min_stat := by
  induction rs with
  | nil =>
    intro vals dvals auth comp more_val e hmore hres
    rw [getNameAttrLoop, if_neg hmore] at hres
    simp at hres
  | cons r rest ih =>
    intro vals dvals auth comp more_val e hmore hres
    rw [getNameAttrLoop, if_neg hmore] at hres ⊢
    by_cases hmaj : r.maj_stat = GSS_S_COMPLETE
    · rw [if_pos hmaj] at hres ⊢
      dsimp only at hres ⊢
      by_cases hm : r.more = 0
      · rw [getNameAttrLoop.eq_def, if_pos hm] at hres
        simp at hres
      · obtain ⟨pre, fin, htake, hok, hpre, hfinmaj, he⟩ :=
          ih (vals ++ [copyOut r.value]) (dvals ++ [copyOut r.display_value])
            r.authenticated r.complete r.more e hm hres
        refine ⟨r :: pre, fin, ?_, ?_, ?_, hfinmaj, he⟩
        · rw [List.take_succ_cons, htake]; rfl
        · omega
        · intro x hx
          rcases List.mem_cons.mp hx with hx | hx
          · subst hx; exact ⟨hmaj, hm⟩
          · exact hpre x hx
    · rw [if_neg hmaj] at hres ⊢
      dsimp only at hres ⊢
      have heq : e = PyErr.GSSError r.maj_stat r.min_stat := by
        simpa using hres.symm
      exact ⟨[], r, by simp, by simp, by simp, hmaj, heq⟩

/-- If the `set_name_attribute` loop raises, the error carries verbatim
the status pair of some issued native call whose major status was not
success. -/
lemma setNameAttrLoop_error_spec (vals : List Bytes) :
    ∀ (native : Nat → StatusResp) (attr_buff : gss_buffer_desc)
      (complete : Bool) (value_len : Nat) (i callIdx : Nat) (e : PyErr),
      (setNameAttrLoop native attr_buff complete value_len vals i
        callIdx).1 = Except.error e →
      ∃ k, (native k).maj_stat ≠ GSS_S_COMPLETE ∧
        e = PyErr.GSSError (native k).maj_stat (native k).min_stat := by
  induction vals with
  | nil =>
    intro native attr_buff complete value_len i callIdx e he
    rw [setNameAttrLoop] at he
    simp at he
  | cons v rest ih =>
    intro native attr_buff complete value_len i callIdx e he
    rw [setNameAttrLoop] at he
    dsimp only at he
    by_cases hmaj : (native callIdx).maj_stat = GSS_S_COMPLETE
    · rw [if_pos hmaj] at he
      exact ih native attr_buff complete value_len ((i + 1) % SIZE_T_MOD)
        (callIdx + 1) e he
    · rw [if_neg hmaj] at he
      refine ⟨callIdx, hmaj, ?_⟩
      simpa using he.symm

/-- Full status characterization of the `set_name_attribute` loop (call
`callIdx + j` serving the `j`-th remaining value): it returns normally
iff every one of its native calls succeeds; a raised error carries
verbatim the status pair of the FIRST failing call — all earlier calls
succeeded — and the loop stops there (exactly `j + 1` calls issued). -/
lemma setNameAttrLoop_status_spec (vals : List Bytes) :
    ∀ (native : Nat → StatusResp) (attr_buff : gss_buffer_desc)
      (complete : Bool) (value_len : Nat) (i callIdx : Nat),
      ((setNameAttrLoop native attr_buff complete value_len vals i
          callIdx).1 = Except.ok () ↔
        ∀ j, j < vals.length →
          (native (callIdx + j)).maj_stat = GSS_S_COMPLETE) ∧
      (∀ e, (setNameAttrLoop native attr_buff complete value_len vals i
          callIdx).1 = Except.error e →
        ∃ j, j < vals.length ∧
          (∀ j2, j2 < j → (native (callIdx + j2)).maj_stat =
            GSS_S_COMPLETE) ∧
          (native (callIdx + j)).maj_stat ≠ GSS_S_COMPLETE ∧
          e = PyErr.GSSError (native (callIdx + j)).maj_stat
            (native (callIdx + j)).min_stat ∧
          (setNameAttrLoop native attr_buff complete value_len vals i
            callIdx).2.length = j + 1) := by
  induction vals with
  | nil =>
    intro native attr_buff complete value_len i callIdx
    rw [setNameAttrLoop]
    constructor
    · simp
    · intro e he
      simp at he
  | cons v rest ih =>
    intro native attr_buff complete value_len i callIdx
    rw [setNameAttrLoop]
    dsimp only
    by_cases hmaj : (native callIdx).maj_stat = GSS_S_COMPLETE
    · rw [if_pos hmaj]
      have hih := ih native attr_buff complete value_len
        ((i + 1) % SIZE_T_MOD) (callIdx + 1)
      constructor
      · dsimp only
        rw [hih.1]
        constructor
        · intro hp j hj
          match j with
          | 0 => simpa using hmaj
          | j2 + 1 =>
            have h2 := hp j2 (by simpa using Nat.lt_of_succ_lt_succ hj)
            have harith : callIdx + 1 + j2 = callIdx + (j2 + 1) := by omega
            rw [harith] at h2
            exact h2
        · intro hq j hj
          have h2 := hq (j + 1) (by simpa using Nat.succ_lt_succ hj)
          have harith : callIdx + (j + 1) = callIdx + 1 + j := by omega
          rw [harith] at h2
          exact h2
      · intro e he
        dsimp only at he
        obtain ⟨j, hj, hpre, hfail, heq, hlen⟩ := hih.2 e he
        have harith : callIdx + (j + 1) = callIdx + 1 + j := by omega
        refine ⟨j + 1, by simpa using Nat.succ_lt_succ hj, ?_, ?_, ?_, ?_⟩
        · intro j2 hj2
          match j2 with
          | 0 => simpa using hmaj
          | j3 + 1 =>
            have h2 := hpre j3 (by omega)
            have harith2 : callIdx + 1 + j3 = callIdx + (j3 + 1) := by omega
            rw [harith2] at h2
            exact h2
        · rw [harith]
          exact hfail
        · rw [harith]
          exact heq
        · dsimp only
          simp [hlen]
    · rw [if_neg hmaj]
      constructor
      · dsimp only
        constructor
        · intro h
          simp at h
        · intro hq
          exact absurd (by simpa using hq 0 (by simp)) hmaj
      · intro e he
        dsimp only at he
        have heq : e = PyErr.GSSError (native callIdx).maj_stat
            (native callIdx).min_stat := by
          simpa using he.symm
        exact ⟨0, by simp, fun j2 hj2 => absurd hj2 (Nat.not_lt_zero j2),
          by simpa using hmaj, by simpa using heq, by simp⟩

/-- Shape of the `get_name_attribute` loop's event trace: the
concatenated per-iteration blocks of the consumed successful responses
(each block copies both populated buffers out before releasing them),
followed by a lone native-call event exactly when the run ended on a
failing call. -/
lemma getNameAttrLoop_trace_shape (rs : List GetNameAttrResp) :
    ∀ (vals dvals : List Bytes) (auth comp more_val : Int),
      (getNameAttrLoop rs vals dvals auth comp more_val).trace =
        blocksOf (rs.take (getNameAttrLoop rs vals dvals auth comp
          more_val).okCalls) ++
        (if (getNameAttrLoop rs vals dvals auth comp more_val).calls =
            (getNameAttrLoop rs vals dvals auth comp more_val).okCalls
          then [] else [BufEvent.callEv]) := by
  induction rs with
  | nil =>
    intro vals dvals auth comp more_val
    rw [getNameAttrLoop]
    split <;> simp [blocksOf]
  | cons r rest ih =>
    intro vals dvals auth comp more_val
    rw [getNameAttrLoop]
    split
    · simp [blocksOf]
    · split
      next hmaj =>
        dsimp only
        have hsub := ih (vals ++ [copyOut r.value])
          (dvals ++ [copyOut r.display_value]) r.authenticated r.complete
          r.more
        rw [hsub, List.take_succ_cons]
        by_cases hc :
            (getNameAttrLoop rest (vals ++ [copyOut r.value])
              (dvals ++ [copyOut r.display_value]) r.authenticated r.complete
              r.more).calls =
            (getNameAttrLoop rest (vals ++ [copyOut r.value])
              (dvals ++ [copyOut r.display_value]) r.authenticated r.complete
              r.more).okCalls
        · rw [if_pos hc, if_pos (by omega)]
          simp [blocksOf, blockOf]
        · rw [if_neg hc, if_neg (by omega)]
          simp [blocksOf, blockOf]
      next hmaj =>
        dsimp only
        simp [blocksOf]

/-- A concrete one-response oracle for `gss_get_name_attribute`: one
successful call returning value `[5]`, display value `[6]`, both flags
set, continuation zero. -/
def oracleOk1 : List GetNameAttrResp := [⟨0, 0, 1, 1, ⟨1, [5]⟩, ⟨1, [6]⟩, 0⟩]

/-- A concrete one-response oracle for `gss_get_name_attribute` whose
first call fails with status pair `(3, 4)`. -/
def oracleErr1 : List GetNameAttrResp :=
  [⟨3, 4, 0, 0, ⟨0, []⟩, ⟨0, []⟩, 1⟩]

/-- A concrete oracle for `gss_set_name_attribute`: the first call
succeeds, every later one fails with status pair `(13, 14)`. -/
def oracleSet2 : Nat → StatusResp :=
  fun k => if k = 0 then ⟨0, 0⟩ else ⟨13, 14⟩

/-- A concrete succeeding oracle for `gss_add_cred_with_password`
producing output handle `7`. -/
def addOracleOk : AddCredCallRec → AddCredResp := fun _ => ⟨0, 0, 7, [], 0, 0⟩

/-! ## Claim theorems -/

/-- **C1** (code-bug evaluation): the claim requires the completeness
flag to be passed as false on every native `gss_set_name_attribute` call
except the last, and to equal the caller-supplied `complete` exactly on
the final call.  The source declares the loop counter `cdef size_t i`
WITHOUT an initializer and executes `i += 1` before the comparison
`i == value_len`, so the flags actually passed depend on the
indeterminate initial content of `i`.  Evaluating the embedding (all
native calls succeeding, `complete=True`): with one value, initial
content `0` makes the single final call carry flag `1`, but initial
content `1` makes it carry flag `0` (the caller's flag is dropped); with
two values and initial content `1`, the caller's flag goes out on the
FIRST (non-final) call and the final call carries `0` — both
contradicting the claimed protocol. -/
theorem set_name_attribute_uninitialized_counter :
    ((set_name_attribute (fun _ => ⟨GSS_S_COMPLETE, 0⟩) [107] [[118]] true
        0).2.map SetNameAttrCallRec.complete = [1]) ∧
    ((set_name_attribute (fun _ => ⟨GSS_S_COMPLETE, 0⟩) [107] [[118]] true
        1).2.map SetNameAttrCallRec.complete = [0]) ∧
    ((set_name_attribute (fun _ => ⟨GSS_S_COMPLETE, 0⟩) [107] [[1], [2]] true
        1).2.map SetNameAttrCallRec.complete = [1, 0]) := by
  decide

/-- **C10**: calling `set_name_attribute` with an empty value sequence
returns normally, issues no native call and raises nothing (so nothing
is marked complete), for every oracle, attribute, `complete` flag and
indeterminate initial counter content: the non-empty precondition is not
enforced at the public interface. -/
theorem set_name_attribute_empty_values_noop (native : Nat → StatusResp)
    (attr : Bytes) (complete : Bool) (i_uninit : Nat) :
    set_name_attribute native attr [] complete i_uninit =
      (Except.ok (), []) := rfl

/-- **C2**: a succeeding `get_name_attribute` run issues at least one
native call (the continuation state starts at `-1`, not `0`), the
consumed oracle responses split as `pre ++ [fin]` with every response
before the last succeeding with nonzero continuation flag and the last
having continuation flag zero (the loop terminates exactly there), the
result sequences are the copied-out (raw, display) pairs in returned
order, and the authenticated/complete flags are those of the final
iteration. -/
theorem get_name_attribute_pagination (rs : List GetNameAttrResp)
    (attr : Bytes) (auth_uninit comp_uninit : Int)
    (res : GetNameAttributeResult)
    (hres : (get_name_attribute rs attr auth_uninit comp_uninit).result =
      some (Except.ok res)) :
    1 ≤ (get_name_attribute rs attr auth_uninit comp_uninit).calls ∧
    ∃ pre fin,
      rs.take (get_name_attribute rs attr auth_uninit comp_uninit).calls =
        pre ++ [fin] ∧
      (∀ r ∈ pre, r.maj_stat = GSS_S_COMPLETE ∧ r.more ≠ 0) ∧
      fin.maj_stat = GSS_S_COMPLETE ∧ fin.more = 0 ∧
      res.values = (pre ++ [fin]).map (fun r => copyOut r.value) ∧
      res.display_values =
        (pre ++ [fin]).map (fun r => copyOut r.display_value) ∧
      res.authenticated = bint fin.authenticated ∧
      res.complete = bint fin.complete := by
  obtain ⟨pre, fin, htake, hge1, hlen, hok, hpre, hfmaj, hfmore, hauth,
      hcomp, hvals, hdvals⟩ :=
    getNameAttrLoop_ok_spec rs [] [] auth_uninit comp_uninit (-1) res
      (by decide) hres
  exact ⟨hge1, pre, fin, htake, hpre, hfmaj, hfmore, by simpa using hvals,
    by simpa using hdvals, hauth, hcomp⟩

/-- Witness for `get_name_attribute_pagination`: a concrete oracle whose
single response succeeds with continuation flag `0`. -/
theorem get_name_attribute_pagination_witness :
    1 ≤ (get_name_attribute oracleOk1 [9] 7 8).calls ∧
    ∃ pre fin,
      oracleOk1.take (get_name_attribute oracleOk1 [9] 7 8).calls =
        pre ++ [fin] ∧
      (∀ r ∈ pre, r.maj_stat = GSS_S_COMPLETE ∧ r.more ≠ 0) ∧
      fin.maj_stat = GSS_S_COMPLETE ∧ fin.more = 0 ∧
      (⟨[[5]], [[6]], true, true⟩ : GetNameAttributeResult).values =
        (pre ++ [fin]).map (fun r => copyOut r.value) ∧
      (⟨[[5]], [[6]], true, true⟩ : GetNameAttributeResult).display_values =
        (pre ++ [fin]).map (fun r => copyOut r.display_value) ∧
      (⟨[[5]], [[6]], true, true⟩ : GetNameAttributeResult).authenticated =
        bint fin.authenticated ∧
      (⟨[[5]], [[6]], true, true⟩ : GetNameAttributeResult).complete =
        bint fin.complete :=
  get_name_attribute_pagination oracleOk1 [9] 7 8
    ⟨[[5]], [[6]], true, true⟩ (by decide)

/-- **C3**: for every operation wrapper of the module and every native
call it issues, a typed result is returned exactly when the major status
signals success (`GSS_S_COMPLETE`); otherwise the single raised error is
`GSSError` carrying the major and minor codes of the failing call
verbatim.  Covered: `wrap_aead`, `unwrap_aead`, `inquire_name`,
`set_cred_option`, `display_name_ext`, `delete_name_attribute`,
`export_name_composite`; `add_cred_with_password` (for every accepted
usage literal, i.e. whenever it issues its native call at all);
the iterative `set_name_attribute` (returns normally iff every issued
call succeeds, and a raised error carries verbatim the codes of the
FIRST failing call, at which the loop stops); and the iterative
`get_name_attribute` (a returned result means every issued call
succeeded, and a raised error carries the codes of the first failing
call, all earlier calls having succeeded).  The `Except` result type
makes "either one typed result or exactly one error, never both"
structural; nothing is swallowed or retried. -/
theorem status_translation_contract
    (native_w : WrapAeadCallRec → WrapAeadResp) (message : Bytes)
    (associated : Option Bytes) (confidential : Bool) (qop : Option Nat)
    (native_u : UnwrapAeadCallRec → UnwrapAeadResp) (message_u : Bytes)
    (associated_u : Option Bytes)
    (native_i : InquireNameCallRec → InquireNameResp) (mech_name attrs : Bool)
    (native_c : SetCredOptionCallRec → SetCredOptionResp)
    (desired_aspect : Nat) (creds : Option Creds) (value : Option Bytes)
    (fresh_id : Nat)
    (native_d : Nat → Nat → DisplayNameExtResp) (name_d nt_d : Nat)
    (native_del : Nat → gss_buffer_desc → StatusResp) (name_del : Nat)
    (attr_del : Bytes)
    (native_e : Nat → ExportNameResp) (name_e : Nat)
    (native_a : AddCredCallRec → AddCredResp) (name_a mech_a : Nat)
    (pw_a : Bytes) (il_a al_a : Option Nat) (fid_a : Nat)
    (native_s : Nat → StatusResp) (attr_s : Bytes) (value_s : List Bytes)
    (complete_s : Bool) (i_uninit : Nat)
    (rs : List GetNameAttrResp) (attr : Bytes)
    (auth_uninit comp_uninit : Int) :
    ((∃ r, (wrap_aead native_w message associated confidential qop).result =
        Except.ok r) ↔
      (wrap_aead native_w message associated confidential qop).resp.maj_stat =
        GSS_S_COMPLETE) ∧
    ((wrap_aead native_w message associated confidential qop).resp.maj_stat ≠
        GSS_S_COMPLETE →
      (wrap_aead native_w message associated confidential qop).result =
        Except.error (PyErr.GSSError
          (wrap_aead native_w message associated confidential qop).resp.maj_stat
          (wrap_aead native_w message associated confidential
            qop).resp.min_stat)) ∧
    ((∃ r, (unwrap_aead native_u message_u associated_u).result =
        Except.ok r) ↔
      (unwrap_aead native_u message_u associated_u).resp.maj_stat =
        GSS_S_COMPLETE) ∧
    ((unwrap_aead native_u message_u associated_u).resp.maj_stat ≠
        GSS_S_COMPLETE →
      (unwrap_aead native_u message_u associated_u).result =
        Except.error (PyErr.GSSError
          (unwrap_aead native_u message_u associated_u).resp.maj_stat
          (unwrap_aead native_u message_u associated_u).resp.min_stat)) ∧
    ((∃ r, (inquire_name native_i mech_name attrs).result = Except.ok r) ↔
      (inquire_name native_i mech_name attrs).resp.maj_stat =
        GSS_S_COMPLETE) ∧
    ((inquire_name native_i mech_name attrs).resp.maj_stat ≠
        GSS_S_COMPLETE →
      (inquire_name native_i mech_name attrs).result =
        Except.error (PyErr.GSSError
          (inquire_name native_i mech_name attrs).resp.maj_stat
          (inquire_name native_i mech_name attrs).resp.min_stat)) ∧
    ((∃ r, (set_cred_option native_c desired_aspect creds value
        fresh_id).result = Except.ok r) ↔
      (set_cred_option native_c desired_aspect creds value
        fresh_id).resp.maj_stat = GSS_S_COMPLETE) ∧
    ((set_cred_option native_c desired_aspect creds value
        fresh_id).resp.maj_stat ≠ GSS_S_COMPLETE →
      (set_cred_option native_c desired_aspect creds value fresh_id).result =
        Except.error (PyErr.GSSError
          (set_cred_option native_c desired_aspect creds value
            fresh_id).resp.maj_stat
          (set_cred_option native_c desired_aspect creds value
            fresh_id).resp.min_stat)) ∧
    ((∃ r, (display_name_ext native_d name_d nt_d).result = Except.ok r) ↔
      (display_name_ext native_d name_d nt_d).resp.maj_stat =
        GSS_S_COMPLETE) ∧
    ((display_name_ext native_d name_d nt_d).resp.maj_stat ≠
        GSS_S_COMPLETE →
      (display_name_ext native_d name_d nt_d).result =
        Except.error (PyErr.GSSError
          (display_name_ext native_d name_d nt_d).resp.maj_stat
          (display_name_ext native_d name_d nt_d).resp.min_stat)) ∧
    ((∃ r, (delete_name_attribute native_del name_del attr_del).result =
        Except.ok r) ↔
      (delete_name_attribute native_del name_del attr_del).resp.maj_stat =
        GSS_S_COMPLETE) ∧
    ((delete_name_attribute native_del name_del attr_del).resp.maj_stat ≠
        GSS_S_COMPLETE →
      (delete_name_attribute native_del name_del attr_del).result =
        Except.error (PyErr.GSSError
          (delete_name_attribute native_del name_del attr_del).resp.maj_stat
          (delete_name_attribute native_del name_del
            attr_del).resp.min_stat)) ∧
    ((∃ r, (export_name_composite native_e name_e).result = Except.ok r) ↔
      (export_name_composite native_e name_e).resp.maj_stat =
        GSS_S_COMPLETE) ∧
    ((export_name_composite native_e name_e).resp.maj_stat ≠
        GSS_S_COMPLETE →
      (export_name_composite native_e name_e).result =
        Except.error (PyErr.GSSError
          (export_name_composite native_e name_e).resp.maj_stat
          (export_name_composite native_e name_e).resp.min_stat)) ∧
    (∀ u : String, u = "initiate" ∨ u = "accept" ∨ u = "both" →
      ∀ c : Creds, ∃ cr : AddCredCallRec,
        (add_cred_with_password native_a (some c) name_a mech_a pw_a u
          il_a al_a fid_a).2.head? =
          some (AddCredEvent.nativeCallEv cr) ∧
        ((∃ r, (add_cred_with_password native_a (some c) name_a mech_a pw_a
            u il_a al_a fid_a).1 = Except.ok r) ↔
          (native_a cr).maj_stat = GSS_S_COMPLETE) ∧
        ((native_a cr).maj_stat ≠ GSS_S_COMPLETE →
          (add_cred_with_password native_a (some c) name_a mech_a pw_a u
            il_a al_a fid_a).1 =
            Except.error (PyErr.GSSError (native_a cr).maj_stat
              (native_a cr).min_stat))) ∧
    ((set_name_attribute native_s attr_s value_s complete_s i_uninit).1 =
        Except.ok () ↔
      ∀ j, j < value_s.length →
        (native_s j).maj_stat = GSS_S_COMPLETE) ∧
    (∀ e, (set_name_attribute native_s attr_s value_s complete_s
        i_uninit).1 = Except.error e →
      ∃ j, j < value_s.length ∧
        (∀ j2, j2 < j → (native_s j2).maj_stat = GSS_S_COMPLETE) ∧
        (native_s j).maj_stat ≠ GSS_S_COMPLETE ∧
        e = PyErr.GSSError (native_s j).maj_stat (native_s j).min_stat ∧
        (set_name_attribute native_s attr_s value_s complete_s
          i_uninit).2.length = j + 1) ∧
    (∀ res, (get_name_attribute rs attr auth_uninit comp_uninit).result =
        some (Except.ok res) →
      ∀ r ∈ rs.take (get_name_attribute rs attr auth_uninit
          comp_uninit).calls, r.maj_stat = GSS_S_COMPLETE) ∧
    (∀ e, (get_name_attribute rs attr auth_uninit comp_uninit).result =
        some (Except.error e) →
      ∃ pre fin,
        rs.take (get_name_attribute rs attr auth_uninit comp_uninit).calls =
          pre ++ [fin] ∧
        (∀ r ∈ pre, r.maj_stat = GSS_S_COMPLETE) ∧
        fin.maj_stat ≠ GSS_S_COMPLETE ∧
        e = PyErr.GSSError fin.maj_stat fin.min_stat) := by
  refine ⟨?_, ?_, ?_, ?_, ?_, ?_, ?_, ?_, ?_, ?_, ?_, ?_, ?_, ?_, ?_, ?_,
    ?_, ?_, ?_⟩
  · unfold wrap_aead; dsimp only; split <;> simp_all
  · unfold wrap_aead; dsimp only; split <;> simp_all
  · unfold unwrap_aead; dsimp only; split <;> simp_all
  · unfold unwrap_aead; dsimp only; split <;> simp_all
  · unfold inquire_name; dsimp only
    repeat' split
    all_goals simp_all
  · unfold inquire_name; dsimp only
    repeat' split
    all_goals simp_all
  · unfold set_cred_option; dsimp only; split <;> simp_all
  · unfold set_cred_option; dsimp only; split <;> simp_all
  · unfold display_name_ext; dsimp only; split <;> simp_all
  · unfold display_name_ext; dsimp only; split <;> simp_all
  · unfold delete_name_attribute; dsimp only; split <;> simp_all
  · unfold delete_name_attribute; dsimp only; split <;> simp_all
  · unfold export_name_composite; dsimp only; split <;> simp_all
  · unfold export_name_composite; dsimp only; split <;> simp_all
  · intro u hu c
    rcases hu with h | h | h
    · subst h
      unfold add_cred_with_password
      dsimp only
      rw [if_pos rfl]
      dsimp only
      split
      next hmaj =>
        exact ⟨_, rfl, ⟨fun _ => hmaj, fun _ => ⟨_, rfl⟩⟩,
          fun hn => absurd hmaj hn⟩
      next hmaj =>
        refine ⟨_, rfl, ⟨fun hr => ?_, fun h2 => absurd h2 hmaj⟩,
          fun _ => rfl⟩
        obtain ⟨r, hr⟩ := hr
        simp at hr
    · subst h
      unfold add_cred_with_password
      dsimp only
      rw [if_neg (by decide), if_pos rfl]
      dsimp only
      split
      next hmaj =>
        exact ⟨_, rfl, ⟨fun _ => hmaj, fun _ => ⟨_, rfl⟩⟩,
          fun hn => absurd hmaj hn⟩
      next hmaj =>
        refine ⟨_, rfl, ⟨fun hr => ?_, fun h2 => absurd h2 hmaj⟩,
          fun _ => rfl⟩
        obtain ⟨r, hr⟩ := hr
        simp at hr
    · subst h
      unfold add_cred_with_password
      dsimp only
      rw [if_neg (by decide), if_neg (by decide), if_pos rfl]
      dsimp only
      split
      next hmaj =>
        exact ⟨_, rfl, ⟨fun _ => hmaj, fun _ => ⟨_, rfl⟩⟩,
          fun hn => absurd hmaj hn⟩
      next hmaj =>
        refine ⟨_, rfl, ⟨fun hr => ?_, fun h2 => absurd h2 hmaj⟩,
          fun _ => rfl⟩
        obtain ⟨r, hr⟩ := hr
        simp at hr
  · have hspec := setNameAttrLoop_status_spec value_s native_s
      ⟨attr_s.length, attr_s⟩ complete_s value_s.length
      (i_uninit % SIZE_T_MOD) 0
    simpa only [Nat.zero_add] using hspec.1
  · intro e he
    have hspec := setNameAttrLoop_status_spec value_s native_s
      ⟨attr_s.length, attr_s⟩ complete_s value_s.length
      (i_uninit % SIZE_T_MOD) 0
    obtain ⟨j, hj, hpre, hfail, heq, hlen⟩ := hspec.2 e he
    exact ⟨j, hj,
      fun j2 hj2 => by simpa only [Nat.zero_add] using hpre j2 hj2,
      by simpa only [Nat.zero_add] using hfail,
      by simpa only [Nat.zero_add] using heq, hlen⟩
  · intro res hres
    obtain ⟨pre, fin, htake, _, _, _, hpre, hfmaj, _, _, _, _, _⟩ :=
      getNameAttrLoop_ok_spec rs [] [] auth_uninit comp_uninit (-1) res
        (by decide) hres
    have htake2 : rs.take (get_name_attribute rs attr auth_uninit
        comp_uninit).calls = pre ++ [fin] := htake
    intro r hr
    rw [htake2] at hr
    rcases List.mem_append.mp hr with hr | hr
    · exact (hpre r hr).1
    · rw [List.mem_singleton.mp hr]; exact hfmaj
  · intro e he
    obtain ⟨pre, fin, htake, _, hpre, hfmaj, heq⟩ :=
      getNameAttrLoop_error_spec rs [] [] auth_uninit comp_uninit (-1) e
        (by decide) he
    exact ⟨pre, fin, htake, fun r hr => (hpre r hr).1, hfmaj, heq⟩

/-- Witness for `status_translation_contract`: a failing `gss_wrap_aead`
oracle with status pair `(5, 7)`; a failing `gss_display_name_ext`
oracle with status pair `(11, 12)`; `add_cred_with_password` at the
accepted literal "accept" with a succeeding oracle; a two-value
`set_name_attribute` run whose second native call fails with status pair
`(13, 14)`; and a `gss_get_name_attribute` oracle whose first response
fails with status pair `(3, 4)`. -/
theorem status_translation_contract_witness :
    ((wrap_aead (fun _ => ⟨5, 7, 0, ⟨0, []⟩⟩) [1] none true none).result =
      Except.error (PyErr.GSSError
        (wrap_aead (fun _ => ⟨5, 7, 0, ⟨0, []⟩⟩) [1] none true
          none).resp.maj_stat
        (wrap_aead (fun _ => ⟨5, 7, 0, ⟨0, []⟩⟩) [1] none true
          none).resp.min_stat)) ∧
    ((display_name_ext (fun _ _ => ⟨11, 12, ⟨0, []⟩⟩) 1 2).result =
      Except.error (PyErr.GSSError
        (display_name_ext (fun _ _ => ⟨11, 12, ⟨0, []⟩⟩) 1 2).resp.maj_stat
        (display_name_ext (fun _ _ => ⟨11, 12, ⟨0, []⟩⟩) 1
          2).resp.min_stat)) ∧
    (∃ cr : AddCredCallRec,
      (add_cred_with_password addOracleOk (some ⟨4, 6⟩) 1 2 [3] "accept"
        none none 5).2.head? = some (AddCredEvent.nativeCallEv cr) ∧
      ((∃ r, (add_cred_with_password addOracleOk (some ⟨4, 6⟩) 1 2 [3]
          "accept" none none 5).1 = Except.ok r) ↔
        (addOracleOk cr).maj_stat = GSS_S_COMPLETE) ∧
      ((addOracleOk cr).maj_stat ≠ GSS_S_COMPLETE →
        (add_cred_with_password addOracleOk (some ⟨4, 6⟩) 1 2 [3] "accept"
          none none 5).1 =
          Except.error (PyErr.GSSError (addOracleOk cr).maj_stat
            (addOracleOk cr).min_stat))) ∧
    (∃ j, j < ([[1], [2]] : List Bytes).length ∧
      (∀ j2, j2 < j → (oracleSet2 j2).maj_stat = GSS_S_COMPLETE) ∧
      (oracleSet2 j).maj_stat ≠ GSS_S_COMPLETE ∧
      PyErr.GSSError 13 14 =
        PyErr.GSSError (oracleSet2 j).maj_stat (oracleSet2 j).min_stat ∧
      (set_name_attribute oracleSet2 [9] [[1], [2]] true 0).2.length =
        j + 1) ∧
    (∃ pre fin,
      oracleErr1.take (get_name_attribute oracleErr1 [2] 0 0).calls =
        pre ++ [fin] ∧
      (∀ r ∈ pre, r.maj_stat = GSS_S_COMPLETE) ∧
      fin.maj_stat ≠ GSS_S_COMPLETE ∧
      PyErr.GSSError 3 4 = PyErr.GSSError fin.maj_stat fin.min_stat) := by
  have h := status_translation_contract (fun _ => ⟨5, 7, 0, ⟨0, []⟩⟩) [1] none
    true none (fun _ => ⟨0, 0, 0, 0, ⟨0, []⟩⟩) [] none
    (fun _ => ⟨0, 0, 0, 0, none⟩) true true (fun _ => ⟨0, 0, 0⟩) 0 none none 0
    (fun _ _ => ⟨11, 12, ⟨0, []⟩⟩) 1 2 (fun _ _ => ⟨0, 0⟩) 1 [2]
    (fun _ => ⟨0, 0, ⟨0, []⟩⟩) 1 addOracleOk 1 2 [3] none none 5
    oracleSet2 [9] [[1], [2]] true 0 oracleErr1 [2] 0 0
  obtain ⟨_, c2, _, _, _, _, _, _, _, c10, _, _, _, _, c15, _, c17, _,
    c19⟩ := h
  exact ⟨c2 (by decide), c10 (by decide),
    c15 "accept" (Or.inr (Or.inl rfl)) ⟨4, 6⟩,
    c17 (PyErr.GSSError 13 14) (by decide),
    c19 (PyErr.GSSError 3 4) (by decide)⟩

/-- **C4**: buffer release discipline, for every operation and on every
path.  For each single-buffer wrapper (`wrap_aead`, `unwrap_aead`,
`display_name_ext`, `export_name_composite`): on success the event trace
is exactly native call, then copy-out of the one populated output
buffer, then a single release of that same buffer (release after copy,
exactly once); on failure the trace is just the native call — the
unpopulated output buffer is never released.  `delete_name_attribute`
has no output buffer: its trace is always just the native call, with
nothing copied or released.  For `inquire_name`, the number of
`gss_release_buffer_set` calls equals the number of genuinely populated
attribute-name sets obtained: one exactly when the call succeeded, the
set was requested and is not the `GSS_C_NO_BUFFER_SET` sentinel, zero
otherwise (including every failure path).  For the iterative
`get_name_attribute`: the trace is exactly the concatenated per-call
blocks of the consumed successful responses — each block (`blockOf`)
copies both populated buffers out BEFORE releasing each exactly once —
followed by a lone call event exactly when the run ended on a failing
call; hence release events = copy events = twice the successful calls =
the number of populated buffers, on every path. -/
theorem buffer_release_discipline
    (native_w : WrapAeadCallRec → WrapAeadResp) (message : Bytes)
    (associated : Option Bytes) (confidential : Bool) (qop : Option Nat)
    (native_u : UnwrapAeadCallRec → UnwrapAeadResp) (message_u : Bytes)
    (associated_u : Option Bytes)
    (native_d : Nat → Nat → DisplayNameExtResp) (name_d nt_d : Nat)
    (native_e : Nat → ExportNameResp) (name_e : Nat)
    (native_del : Nat → gss_buffer_desc → StatusResp) (name_del : Nat)
    (attr_del : Bytes)
    (native_i : InquireNameCallRec → InquireNameResp) (mech_name attrs : Bool)
    (rs : List GetNameAttrResp) (attr : Bytes)
    (auth_uninit comp_uninit : Int) :
    ((wrap_aead native_w message associated confidential qop).resp.maj_stat =
        GSS_S_COMPLETE →
      (wrap_aead native_w message associated confidential qop).trace =
        [BufEvent.callEv,
         BufEvent.copyEv (wrap_aead native_w message associated confidential
           qop).resp.output_message_buffer,
         BufEvent.releaseEv (wrap_aead native_w message associated confidential
           qop).resp.output_message_buffer]) ∧
    ((wrap_aead native_w message associated confidential qop).resp.maj_stat ≠
        GSS_S_COMPLETE →
      (wrap_aead native_w message associated confidential qop).trace =
        [BufEvent.callEv]) ∧
    ((unwrap_aead native_u message_u associated_u).resp.maj_stat =
        GSS_S_COMPLETE →
      (unwrap_aead native_u message_u associated_u).trace =
        [BufEvent.callEv,
         BufEvent.copyEv (unwrap_aead native_u message_u
           associated_u).resp.output_payload_buffer,
         BufEvent.releaseEv (unwrap_aead native_u message_u
           associated_u).resp.output_payload_buffer]) ∧
    ((unwrap_aead native_u message_u associated_u).resp.maj_stat ≠
        GSS_S_COMPLETE →
      (unwrap_aead native_u message_u associated_u).trace =
        [BufEvent.callEv]) ∧
    ((display_name_ext native_d name_d nt_d).resp.maj_stat =
        GSS_S_COMPLETE →
      (display_name_ext native_d name_d nt_d).trace =
        [BufEvent.callEv,
         BufEvent.copyEv (display_name_ext native_d name_d
           nt_d).resp.output_name,
         BufEvent.releaseEv (display_name_ext native_d name_d
           nt_d).resp.output_name]) ∧
    ((display_name_ext native_d name_d nt_d).resp.maj_stat ≠
        GSS_S_COMPLETE →
      (display_name_ext native_d name_d nt_d).trace = [BufEvent.callEv]) ∧
    ((export_name_composite native_e name_e).resp.maj_stat =
        GSS_S_COMPLETE →
      (export_name_composite native_e name_e).trace =
        [BufEvent.callEv,
         BufEvent.copyEv (export_name_composite native_e
           name_e).resp.exported_name,
         BufEvent.releaseEv (export_name_composite native_e
           name_e).resp.exported_name]) ∧
    ((export_name_composite native_e name_e).resp.maj_stat ≠
        GSS_S_COMPLETE →
      (export_name_composite native_e name_e).trace = [BufEvent.callEv]) ∧
    (delete_name_attribute native_del name_del attr_del).trace =
      [BufEvent.callEv] ∧
    ((inquire_name native_i mech_name attrs).resp.maj_stat =
        GSS_S_COMPLETE →
      (inquire_name native_i mech_name attrs).releaseSetCalls =
        (if attrs = true ∧
            (native_i ⟨mech_name, mech_name, attrs⟩).attrs ≠ none
          then 1 else 0)) ∧
    ((inquire_name native_i mech_name attrs).resp.maj_stat ≠
        GSS_S_COMPLETE →
      (inquire_name native_i mech_name attrs).releaseSetCalls = 0) ∧
    (get_name_attribute rs attr auth_uninit comp_uninit).trace =
      blocksOf (rs.take (get_name_attribute rs attr auth_uninit
        comp_uninit).okCalls) ++
      (if (get_name_attribute rs attr auth_uninit comp_uninit).calls =
          (get_name_attribute rs attr auth_uninit comp_uninit).okCalls
        then [] else [BufEvent.callEv]) ∧
    releaseCount (get_name_attribute rs attr auth_uninit comp_uninit).trace =
      2 * (get_name_attribute rs attr auth_uninit comp_uninit).okCalls ∧
    copyCount (get_name_attribute rs attr auth_uninit comp_uninit).trace =
      2 * (get_name_attribute rs attr auth_uninit comp_uninit).okCalls := by
  refine ⟨?_, ?_, ?_, ?_, ?_, ?_, ?_, ?_, ?_, ?_, ?_, ?_, ?_, ?_⟩
  · unfold wrap_aead; dsimp only; split <;> simp_all
  · unfold wrap_aead; dsimp only; split <;> simp_all
  · unfold unwrap_aead; dsimp only; split <;> simp_all
  · unfold unwrap_aead; dsimp only; split <;> simp_all
  · unfold display_name_ext; dsimp only; split <;> simp_all
  · unfold display_name_ext; dsimp only; split <;> simp_all
  · unfold export_name_composite; dsimp only; split <;> simp_all
  · unfold export_name_composite; dsimp only; split <;> simp_all
  · unfold delete_name_attribute; dsimp only; split <;> rfl
  · cases attrs with
    | false =>
      unfold inquire_name; dsimp only
      repeat' split
      all_goals simp_all
    | true =>
      unfold inquire_name; dsimp only
      repeat' split
      all_goals simp_all
  · cases attrs with
    | false =>
      unfold inquire_name; dsimp only
      repeat' split
      all_goals simp_all
    | true =>
      unfold inquire_name; dsimp only
      repeat' split
      all_goals simp_all
  · exact getNameAttrLoop_trace_shape rs [] [] auth_uninit comp_uninit (-1)
  · exact (getNameAttrLoop_counts rs [] [] auth_uninit comp_uninit (-1)).1
  · exact (getNameAttrLoop_counts rs [] [] auth_uninit comp_uninit (-1)).2

/-- Witness for `buffer_release_discipline`: succeeding oracles for
wrap/unwrap/display and a populated inquire set (one release each, after
the copy), failing wrap/export oracles (no release), the bufferless
delete, and the one-successful-call `gss_get_name_attribute` oracle
(two populated buffers, two releases, trace in per-call block shape). -/
theorem buffer_release_discipline_witness :
    ((wrap_aead (fun _ => ⟨0, 0, 1, ⟨2, [9, 9]⟩⟩) [1] none true none).trace =
      [BufEvent.callEv,
       BufEvent.copyEv (wrap_aead (fun _ => ⟨0, 0, 1, ⟨2, [9, 9]⟩⟩) [1] none
         true none).resp.output_message_buffer,
       BufEvent.releaseEv (wrap_aead (fun _ => ⟨0, 0, 1, ⟨2, [9, 9]⟩⟩) [1] none
         true none).resp.output_message_buffer]) ∧
    ((wrap_aead (fun _ => ⟨5, 7, 0, ⟨0, []⟩⟩) [1] none true none).trace =
      [BufEvent.callEv]) ∧
    ((unwrap_aead (fun _ => ⟨0, 0, 1, 3, ⟨1, [8]⟩⟩) [4] none).trace =
      [BufEvent.callEv,
       BufEvent.copyEv (unwrap_aead (fun _ => ⟨0, 0, 1, 3, ⟨1, [8]⟩⟩) [4]
         none).resp.output_payload_buffer,
       BufEvent.releaseEv (unwrap_aead (fun _ => ⟨0, 0, 1, 3, ⟨1, [8]⟩⟩) [4]
         none).resp.output_payload_buffer]) ∧
    ((display_name_ext (fun _ _ => ⟨0, 0, ⟨1, [5]⟩⟩) 1 2).trace =
      [BufEvent.callEv,
       BufEvent.copyEv (display_name_ext (fun _ _ => ⟨0, 0, ⟨1, [5]⟩⟩) 1
         2).resp.output_name,
       BufEvent.releaseEv (display_name_ext (fun _ _ => ⟨0, 0, ⟨1, [5]⟩⟩) 1
         2).resp.output_name]) ∧
    ((export_name_composite (fun _ => ⟨11, 12, ⟨0, []⟩⟩) 1).trace =
      [BufEvent.callEv]) ∧
    ((delete_name_attribute (fun _ _ => ⟨0, 0⟩) 1 [2]).trace =
      [BufEvent.callEv]) ∧
    ((inquire_name (fun _ => ⟨0, 0, 1, 42, some [⟨1, [7]⟩]⟩) true
        true).releaseSetCalls =
      (if true = true ∧
          ((fun _ => ⟨0, 0, 1, 42, some [⟨1, [7]⟩]⟩ :
            InquireNameCallRec → InquireNameResp)
              ⟨true, true, true⟩).attrs ≠ none
        then 1 else 0)) ∧
    ((get_name_attribute oracleOk1 [2] 0 0).trace =
      blocksOf (oracleOk1.take (get_name_attribute oracleOk1 [2] 0
        0).okCalls) ++
      (if (get_name_attribute oracleOk1 [2] 0 0).calls =
          (get_name_attribute oracleOk1 [2] 0 0).okCalls
        then [] else [BufEvent.callEv])) ∧
    releaseCount (get_name_attribute oracleOk1 [2] 0 0).trace =
      2 * (get_name_attribute oracleOk1 [2] 0 0).okCalls := by
  have h1 := buffer_release_discipline (fun _ => ⟨0, 0, 1, ⟨2, [9, 9]⟩⟩) [1]
    none true none (fun _ => ⟨0, 0, 1, 3, ⟨1, [8]⟩⟩) [4] none
    (fun _ _ => ⟨0, 0, ⟨1, [5]⟩⟩) 1 2 (fun _ => ⟨0, 0, ⟨1, [6]⟩⟩) 1
    (fun _ _ => ⟨0, 0⟩) 1 [2] (fun _ => ⟨0, 0, 1, 42, some [⟨1, [7]⟩]⟩) true
    true oracleOk1 [2] 0 0
  have h2 := buffer_release_discipline (fun _ => ⟨5, 7, 0, ⟨0, []⟩⟩) [1]
    none true none (fun _ => ⟨0, 0, 0, 0, ⟨0, []⟩⟩) [] none
    (fun _ _ => ⟨0, 0, ⟨0, []⟩⟩) 1 2 (fun _ => ⟨11, 12, ⟨0, []⟩⟩) 1
    (fun _ _ => ⟨0, 0⟩) 1 [2] (fun _ => ⟨0, 0, 0, 0, none⟩) true true
    [] [2] 0 0
  obtain ⟨d1, d2, d3, _, d5, _, _, d8, d9, d10, _, d12, d13, _⟩ := h1
  obtain ⟨_, e2, _, _, _, _, _, e8, _, _, _, _, _, _⟩ := h2
  exact ⟨d1 (by decide), e2 (by decide), d3 (by decide), d5 (by decide),
    e8 (by decide), d9, d10 (by decide), d12, d13⟩

/-- **C5**: `add_cred_with_password` validates the `usage` string inside
the binding, before any native call: any value other than the exact
literals "initiate", "accept", "both" is rejected with `ValueError`
(Python's invalid-input error class) and an empty native-call trace;
each accepted literal is mapped to the corresponding native
`gss_cred_usage_t` constant on the issued native call. -/
theorem add_cred_with_password_usage_validation
    (native : AddCredCallRec → AddCredResp) (cred : Creds) (name mech : Nat)
    (password : Bytes) (usage : String)
    (init_lifetime accept_lifetime : Option Nat) (fresh_id : Nat) :
    (usage ≠ "initiate" → usage ≠ "accept" → usage ≠ "both" →
      add_cred_with_password native (some cred) name mech password usage
        init_lifetime accept_lifetime fresh_id =
        (Except.error PyErr.ValueError, [])) ∧
    (usage = "initiate" → ∃ cr rest,
      (add_cred_with_password native (some cred) name mech password usage
        init_lifetime accept_lifetime fresh_id).2 =
        AddCredEvent.nativeCallEv cr :: rest ∧
      cr.cred_usage = gss_cred_usage_t.GSS_C_INITIATE) ∧
    (usage = "accept" → ∃ cr rest,
      (add_cred_with_password native (some cred) name mech password usage
        init_lifetime accept_lifetime fresh_id).2 =
        AddCredEvent.nativeCallEv cr :: rest ∧
      cr.cred_usage = gss_cred_usage_t.GSS_C_ACCEPT) ∧
    (usage = "both" → ∃ cr rest,
      (add_cred_with_password native (some cred) name mech password usage
        init_lifetime accept_lifetime fresh_id).2 =
        AddCredEvent.nativeCallEv cr :: rest ∧
      cr.cred_usage = gss_cred_usage_t.GSS_C_BOTH) := by
  refine ⟨?_, ?_, ?_, ?_⟩
  · intro h1 h2 h3
    unfold add_cred_with_password
    dsimp only
    rw [if_neg h1, if_neg h2, if_neg h3]
  · intro h
    unfold add_cred_with_password
    dsimp only
    rw [if_pos h]
    dsimp only
    split
    · exact ⟨_, _, rfl, rfl⟩
    · exact ⟨_, _, rfl, rfl⟩
  · intro h
    unfold add_cred_with_password
    dsimp only
    rw [if_neg (by rw [h]; decide), if_pos h]
    dsimp only
    split
    · exact ⟨_, _, rfl, rfl⟩
    · exact ⟨_, _, rfl, rfl⟩
  · intro h
    unfold add_cred_with_password
    dsimp only
    rw [if_neg (by rw [h]; decide), if_neg (by rw [h]; decide), if_pos h]
    dsimp only
    split
    · exact ⟨_, _, rfl, rfl⟩
    · exact ⟨_, _, rfl, rfl⟩

/-- Witness for `add_cred_with_password_usage_validation`: the literal
"bogus" is rejected with `ValueError` and no native call; the literal
"accept" reaches the native call with `GSS_C_ACCEPT`. -/
theorem add_cred_with_password_usage_validation_witness :
    (add_cred_with_password (fun _ => ⟨0, 0, 7, [], 0, 0⟩) (some ⟨4, 6⟩) 1 2
      [3] "bogus" none none 5 = (Except.error PyErr.ValueError, [])) ∧
    (∃ cr rest,
      (add_cred_with_password (fun _ => ⟨0, 0, 7, [], 0, 0⟩) (some ⟨4, 6⟩) 1 2
        [3] "accept" none none 5).2 =
        AddCredEvent.nativeCallEv cr :: rest ∧
      cr.cred_usage = gss_cred_usage_t.GSS_C_ACCEPT) := by
  have h1 := add_cred_with_password_usage_validation
    (fun _ => ⟨0, 0, 7, [], 0, 0⟩) ⟨4, 6⟩ 1 2 [3] "bogus" none none 5
  have h2 := add_cred_with_password_usage_validation
    (fun _ => ⟨0, 0, 7, [], 0, 0⟩) ⟨4, 6⟩ 1 2 [3] "accept" none none 5
  exact ⟨h1.1 (by decide) (by decide) (by decide), h2.2.2.1 rfl⟩

/-- **C6** counterexample: the claim says that with an absent/null input
credential the operation proceeds and the native layer creates a fresh
credential.  But the Cython signature declares `Creds input_cred not
None`, so calling with an absent (`None`) input credential raises
`TypeError` inside the binding: no native call is issued and no
credential is created — the operation does not proceed. -/
theorem add_cred_with_password_absent_cred_rejected :
    add_cred_with_password (fun _ => ⟨GSS_S_COMPLETE, 0, 7, [], 0, 0⟩) none 1 2
      [3] "initiate" none none 5 = (Except.error PyErr.TypeError, []) := rfl

/-- **C6** (amended): a literally absent (`None`) input credential is
rejected by the binding (`TypeError`) before any native call.  When the
supplied credential object wraps the NULL native handle
(`GSS_C_NO_CREDENTIAL`, as a freshly constructed `Creds()` does), the
operation proceeds: the native call receives the NULL input handle (the
native layer owns fresh-handle creation), the binding allocates its
caller-side `Creds` wrapper only AFTER a successful native call (never
pre-allocates), and the returned credential wraps the handle the native
layer produced. -/
theorem add_cred_with_password_null_handle_fresh
    (native : AddCredCallRec → AddCredResp) (cred : Creds) (name mech : Nat)
    (password : Bytes) (init_lifetime accept_lifetime : Option Nat)
    (fresh_id : Nat) (hnull : cred.raw_creds = GSS_C_NO_CREDENTIAL) :
    ∃ cr : AddCredCallRec,
      cr.input_cred_handle = GSS_C_NO_CREDENTIAL ∧
      ((native cr).maj_stat = GSS_S_COMPLETE →
        (add_cred_with_password native (some cred) name mech password
          "initiate" init_lifetime accept_lifetime fresh_id).2 =
          [AddCredEvent.nativeCallEv cr, AddCredEvent.allocCredsEv] ∧
        ∃ r, (add_cred_with_password native (some cred) name mech password
            "initiate" init_lifetime accept_lifetime fresh_id).1 =
          Except.ok r ∧ r.creds.raw_creds = (native cr).output_creds) ∧
      ((native cr).maj_stat ≠ GSS_S_COMPLETE →
        (add_cred_with_password native (some cred) name mech password
          "initiate" init_lifetime accept_lifetime fresh_id).2 =
          [AddCredEvent.nativeCallEv cr]) := by
  refine ⟨⟨cred.raw_creds, name, mech, ⟨password.length, password⟩,
    gss_cred_usage_t.GSS_C_INITIATE, c_py_ttl_to_c init_lifetime,
    c_py_ttl_to_c accept_lifetime⟩, hnull, ?_, ?_⟩
  · intro hmaj
    unfold add_cred_with_password
    dsimp only
    rw [if_pos rfl]
    dsimp only
    rw [if_pos hmaj]
    exact ⟨rfl, _, rfl, rfl⟩
  · intro hmaj
    unfold add_cred_with_password
    dsimp only
    rw [if_pos rfl]
    dsimp only
    rw [if_neg hmaj]

/-- Witness for `add_cred_with_password_null_handle_fresh`: a credential
object wrapping the NULL handle and a succeeding native oracle that
produces handle `7`. -/
theorem add_cred_with_password_null_handle_fresh_witness :
    ∃ cr : AddCredCallRec,
      cr.input_cred_handle = GSS_C_NO_CREDENTIAL ∧
      (((fun _ => ⟨0, 0, 7, [11], 9, 9⟩ :
          AddCredCallRec → AddCredResp) cr).maj_stat = GSS_S_COMPLETE →
        (add_cred_with_password (fun _ => ⟨0, 0, 7, [11], 9, 9⟩)
          (some ⟨4, 0⟩) 1 2 [3] "initiate" none none 5).2 =
          [AddCredEvent.nativeCallEv cr, AddCredEvent.allocCredsEv] ∧
        ∃ r, (add_cred_with_password (fun _ => ⟨0, 0, 7, [11], 9, 9⟩)
            (some ⟨4, 0⟩) 1 2 [3] "initiate" none none 5).1 =
          Except.ok r ∧
          r.creds.raw_creds = ((fun _ => ⟨0, 0, 7, [11], 9, 9⟩ :
            AddCredCallRec → AddCredResp) cr).output_creds) ∧
      (((fun _ => ⟨0, 0, 7, [11], 9, 9⟩ :
          AddCredCallRec → AddCredResp) cr).maj_stat ≠ GSS_S_COMPLETE →
        (add_cred_with_password (fun _ => ⟨0, 0, 7, [11], 9, 9⟩)
          (some ⟨4, 0⟩) 1 2 [3] "initiate" none none 5).2 =
          [AddCredEvent.nativeCallEv cr]) :=
  add_cred_with_password_null_handle_fresh (fun _ => ⟨0, 0, 7, [11], 9, 9⟩)
    ⟨4, 0⟩ 1 2 [3] none none 5 rfl

/-- **C7**: for `wrap_aead` and `unwrap_aead`, absent associated data is
marshalled as the `GSS_C_NO_BUFFER` null-pointer sentinel, while
supplied associated data — including the empty byte string — is
marshalled as a real buffer descriptor of its exact length; the two
marshallings are never equal, so absence and explicit-empty are never
conflated. -/
theorem aead_assoc_absent_vs_empty
    (native_w : WrapAeadCallRec → WrapAeadResp)
    (native_u : UnwrapAeadCallRec → UnwrapAeadResp)
    (message : Bytes) (confidential : Bool) (qop : Option Nat) :
    ((wrap_aead native_w message none confidential
        qop).callRec.input_assoc_buffer = gss_buffer_t.GSS_C_NO_BUFFER) ∧
    (∀ a : Bytes, (wrap_aead native_w message (some a) confidential
        qop).callRec.input_assoc_buffer = gss_buffer_t.buf ⟨a.length, a⟩) ∧
    ((unwrap_aead native_u message none).callRec.input_assoc_buffer =
      gss_buffer_t.GSS_C_NO_BUFFER) ∧
    (∀ a : Bytes, (unwrap_aead native_u message
        (some a)).callRec.input_assoc_buffer =
      gss_buffer_t.buf ⟨a.length, a⟩) ∧
    (∀ a : Bytes,
      gss_buffer_t.buf ⟨a.length, a⟩ ≠ gss_buffer_t.GSS_C_NO_BUFFER) := by
  refine ⟨?_, ?_, ?_, ?_, ?_⟩
  · unfold wrap_aead; dsimp only; split <;> rfl
  · intro a; unfold wrap_aead; dsimp only; split <;> rfl
  · unfold unwrap_aead; dsimp only; split <;> rfl
  · intro a; unfold unwrap_aead; dsimp only; split <;> rfl
  · intro a h; exact gss_buffer_t.noConfusion h

/-- Witness for `aead_assoc_absent_vs_empty`: with a concrete oracle,
absent associated data yields the null-buffer sentinel while an
explicitly empty byte string yields a real zero-length descriptor,
and the two differ. -/
theorem aead_assoc_absent_vs_empty_witness :
    ((wrap_aead (fun _ => ⟨0, 0, 0, ⟨0, []⟩⟩) [1] none true
        none).callRec.input_assoc_buffer = gss_buffer_t.GSS_C_NO_BUFFER) ∧
    ((wrap_aead (fun _ => ⟨0, 0, 0, ⟨0, []⟩⟩) [1] (some []) true
        none).callRec.input_assoc_buffer = gss_buffer_t.buf ⟨0, []⟩) ∧
    gss_buffer_t.buf ⟨0, ([] : Bytes)⟩ ≠ gss_buffer_t.GSS_C_NO_BUFFER := by
  have h := aead_assoc_absent_vs_empty (fun _ => ⟨0, 0, 0, ⟨0, []⟩⟩)
    (fun _ => ⟨0, 0, 0, 0, ⟨0, []⟩⟩) [1] true none
  exact ⟨h.1, h.2.1 [], h.2.2.2.2 []⟩

/-- **C8**: `inquire_name` passes each optional out-pointer to the
native call exactly when the corresponding boolean argument is true
(`NULL` otherwise).  On success: when the attribute-name out-parameter
holds the `GSS_C_NO_BUFFER_SET` sentinel (because the native call left
it so, or because it was never requested), the result list is empty and
no `gss_release_buffer_set` call is made; when it holds a genuinely
allocated set, the result list is its extracted elements and the set is
released exactly once. -/
theorem inquire_name_gating_and_sentinel
    (native : InquireNameCallRec → InquireNameResp)
    (mech_name attrs : Bool) :
    (inquire_name native mech_name attrs).callRec =
      ⟨mech_name, mech_name, attrs⟩ ∧
    ((native ⟨mech_name, mech_name, attrs⟩).maj_stat = GSS_S_COMPLETE →
      ((attrs = false ∨
          (native ⟨mech_name, mech_name, attrs⟩).attrs = none) →
        (inquire_name native mech_name attrs).releaseSetCalls = 0 ∧
        ∃ r, (inquire_name native mech_name attrs).result = Except.ok r ∧
          r.attrs = []) ∧
      (∀ elems, attrs = true →
        (native ⟨mech_name, mech_name, attrs⟩).attrs = some elems →
        (inquire_name native mech_name attrs).releaseSetCalls = 1 ∧
        ∃ r, (inquire_name native mech_name attrs).result = Except.ok r ∧
          r.attrs = elems.map copyOut)) := by
  refine ⟨?_, ?_⟩
  · unfold inquire_name
    dsimp only
    repeat' split
    all_goals rfl
  · intro hmaj
    refine ⟨?_, ?_⟩
    · intro hcase
      unfold inquire_name
      dsimp only
      rcases hcase with hA | hnone
      · subst hA; simp [hmaj]
      · simp [hmaj, hnone]
    · intro elems hA hsome
      subst hA
      unfold inquire_name
      dsimp only
      simp [hmaj, hsome]

/-- Witness for `inquire_name_gating_and_sentinel`: both outputs
requested, a succeeding oracle returning a genuinely populated one-element
attribute-name set. -/
theorem inquire_name_gating_and_sentinel_witness :
    (inquire_name (fun _ => ⟨0, 0, 1, 42, some [⟨1, [7]⟩]⟩) true
        true).callRec = ⟨true, true, true⟩ ∧
    ((inquire_name (fun _ => ⟨0, 0, 1, 42, some [⟨1, [7]⟩]⟩) true
        true).releaseSetCalls = 1 ∧
      ∃ r, (inquire_name (fun _ => ⟨0, 0, 1, 42, some [⟨1, [7]⟩]⟩) true
          true).result = Except.ok r ∧
        r.attrs = ([⟨1, [7]⟩] : List gss_buffer_desc).map copyOut) := by
  have h := inquire_name_gating_and_sentinel
    (fun _ => ⟨0, 0, 1, 42, some [⟨1, [7]⟩]⟩) true true
  exact ⟨h.1, (h.2 rfl).2 [⟨1, [7]⟩] rfl rfl⟩

/-- **C9**: `set_cred_option` with a supplied credential issues no
binding-side allocation, passes that credential's native handle through
the in/out parameter, and on success returns a credential with the SAME
object identity whose wrapped handle is whatever the native call left in
the in/out parameter (mutation in place, not a distinct handle).  With
`creds` absent, a fresh `Creds()` is constructed BEFORE the native call
(the allocation event precedes the native-call event), its NULL handle
is what the native call receives, and on success that same fresh object
is returned. -/
theorem set_cred_option_in_place
    (native : SetCredOptionCallRec → SetCredOptionResp)
    (desired_aspect : Nat) (value : Option Bytes) (fresh_id : Nat) :
    (∀ c : Creds,
      (set_cred_option native desired_aspect (some c) value
        fresh_id).callRec.cred_handle_in = c.raw_creds ∧
      (set_cred_option native desired_aspect (some c) value fresh_id).trace =
        [SetCredEvent.nativeCallEv (set_cred_option native desired_aspect
          (some c) value fresh_id).callRec] ∧
      ((set_cred_option native desired_aspect (some c) value
          fresh_id).resp.maj_stat = GSS_S_COMPLETE →
        (set_cred_option native desired_aspect (some c) value
          fresh_id).result = Except.ok ⟨c.obj_id,
            (set_cred_option native desired_aspect (some c) value
              fresh_id).resp.new_cred_handle⟩)) ∧
    ((set_cred_option native desired_aspect none value
        fresh_id).callRec.cred_handle_in = GSS_C_NO_CREDENTIAL ∧
      (set_cred_option native desired_aspect none value fresh_id).trace =
        [SetCredEvent.allocCredsEv (CredsNew fresh_id),
         SetCredEvent.nativeCallEv (set_cred_option native desired_aspect
           none value fresh_id).callRec] ∧
      ((set_cred_option native desired_aspect none value
          fresh_id).resp.maj_stat = GSS_S_COMPLETE →
        (set_cred_option native desired_aspect none value
          fresh_id).result = Except.ok ⟨fresh_id,
            (set_cred_option native desired_aspect none value
              fresh_id).resp.new_cred_handle⟩)) := by
  refine ⟨fun c => ⟨?_, ?_, ?_⟩, ?_, ?_, ?_⟩
  all_goals
    unfold set_cred_option
    dsimp only [outputCredsOf, allocEventsOf, CredsNew]
    split <;> simp_all

/-- Witness for `set_cred_option_in_place`: a succeeding oracle leaving
handle `9` in the in/out parameter, applied both to a supplied
credential object `⟨3, 8⟩` and to an absent one. -/
theorem set_cred_option_in_place_witness :
    ((set_cred_option (fun _ => ⟨0, 0, 9⟩) 4 (some ⟨3, 8⟩) none
        6).callRec.cred_handle_in = (⟨3, 8⟩ : Creds).raw_creds ∧
      (set_cred_option (fun _ => ⟨0, 0, 9⟩) 4 (some ⟨3, 8⟩) none 6).result =
        Except.ok ⟨(⟨3, 8⟩ : Creds).obj_id,
          (set_cred_option (fun _ => ⟨0, 0, 9⟩) 4 (some ⟨3, 8⟩) none
            6).resp.new_cred_handle⟩) ∧
    ((set_cred_option (fun _ => ⟨0, 0, 9⟩) 4 none none 6).trace =
      [SetCredEvent.allocCredsEv (CredsNew 6),
       SetCredEvent.nativeCallEv (set_cred_option (fun _ => ⟨0, 0, 9⟩) 4 none
         none 6).callRec]) := by
  have h := set_cred_option_in_place (fun _ => ⟨0, 0, 9⟩) 4 none 6
  exact ⟨⟨(h.1 ⟨3, 8⟩).1, (h.1 ⟨3, 8⟩).2.2 rfl⟩, h.2.2.1⟩

end GssapiRaw
